import Mathlib

/-!
Shallow embedding of `bitbucketcli.py`, a command-line client for the
Bitbucket cloud API.  The hosting-service SDK (the `atlassian` package) is an
external collaborator; it is modelled by pure lookup functions over an
explicit `Cloud` value and by a `CreateCall` record tracking each invocation
of the collaborator's repository-creation operation.  All argument parsing,
validation, credential resolution, dispatch and formatting is translated
directly from the source.
-/

namespace BitbucketCLI

/-- A repository record as returned by the hosting-service SDK: display name,
slug, the named link entries of the repository (`repository.links`, a mapping
rendered as key/value pairs), and the ordered clone links
(`links['clone']`, by the external API's convention HTTPS first, SSH
second). -/
structure Repo where
  name : String
  slug : String
  linkEntries : List (String × String)
  cloneLinks : List String
  deriving DecidableEq, Repr

/-- `BitbucketCLIRepositoryWrapper.https_url`: `self.links['clone'][0]['href']`.
`none` models the `IndexError`/`KeyError` raised when the entry is absent. -/
def Repo.httpsUrl? (r : Repo) : Option String :=
  r.cloneLinks.get? 0

/-- `BitbucketCLIRepositoryWrapper.ssh_url`: `self.links['clone'][1]['href']`. -/
def Repo.sshUrl? (r : Repo) : Option String :=
  r.cloneLinks.get? 1

/-- A project record: display name, key, and its repositories. -/
structure Project where
  name : String
  key : String
  repos : List Repo
  deriving DecidableEq, Repr

/-- A workspace record: display name, slug, and its projects. -/
structure Workspace where
  name : String
  slug : String
  projects : List Project
  deriving DecidableEq, Repr

/-- The collaborator's remote state: the workspaces visible to the account. -/
structure Cloud where
  workspaces : List Workspace
  deriving DecidableEq, Repr

/-- Collaborator lookup `cloud.workspaces.get(key)`: fetch a workspace by
slug; `none` models the not-found fault raised by the SDK. -/
def getWorkspace (c : Cloud) (k : String) : Option Workspace :=
  c.workspaces.find? (fun w => w.slug == k)

/-- Collaborator lookup `workspace.projects.get(key)`. -/
def getProject (w : Workspace) (k : String) : Option Project :=
  w.projects.find? (fun p => p.key == k)

/-- Collaborator lookup `project.repositories.get(key)` (via
`BitbucketCLIProjectWrapper.__getitem__`). -/
def getRepository (p : Project) (k : String) : Option Repo :=
  p.repos.find? (fun r => r.slug == k)

/-- `WorkspaceRepositories.ALLOW_FORKS` of the external SDK. -/
def ALLOW_FORKS : String := "allow_forks"

/-- `WorkspaceRepositories.NO_PUBLIC_FORKS` of the external SDK. -/
def NO_PUBLIC_FORKS : String := "no_public_forks"

/-- `WorkspaceRepositories.NO_FORKS` of the external SDK. -/
def NO_FORKS : String := "no_forks"

/-- `WorkspaceRepositories.FORK_POLICIES`, the fixed enumerated set of fork
policy tokens of the external collaborator's contract. -/
def FORK_POLICIES : List String := [ALLOW_FORKS, NO_PUBLIC_FORKS, NO_FORKS]

/-- One invocation of the collaborator's create operation
`workspace.repositories.create(repo_slug, project_key, is_private, fork_policy)`,
recorded with its arguments for call counting. -/
structure CreateCall where
  repoSlug : String
  projectKey : String
  isPrivate : Option Bool
  forkPolicy : Option String
  deriving DecidableEq, Repr

/-- The collaborator's create operation echoes back the created repository
record; the hosting service names it after the requested slug. -/
def remoteCreate (n : String) : Repo :=
  { name := n, slug := n, linkEntries := [], cloneLinks := [] }

/-- `BitbucketCLI.create_repository`.  `Option` arguments model Python `None`
(the `isinstance` type checks of the source are enforced by the Lean types).
The second component lists the collaborator create calls performed: empty on
every locally-failing path.  Checks appear in source order: project `None`,
workspace `None`, name `None`, then the fork-policy membership test. -/
def create_repository (project : Option Project) (workspace : Option Workspace)
    (repository_name : Option String) (is_private : Option Bool)
    (fork_policy : Option String) : Except String Repo × List CreateCall :=
  match project with
  | none => (Except.error "project is None", [])
  | some p =>
    match workspace with
    | none => (Except.error "workspace is None", [])
    | some _ =>
      match repository_name with
      | none => (Except.error "repository_name is None", [])
      | some n =>
        match fork_policy with
        | some fp =>
          if fp ∈ FORK_POLICIES then
            (Except.ok (remoteCreate n), [⟨n, p.key, is_private, some fp⟩])
          else
            (Except.error "fork_policy is not a valid value", [])
        | none =>
          (Except.ok (remoteCreate n), [⟨n, p.key, is_private, none⟩])

/-- The top-level subcommand selector (`repo` is the parser alias of
`repository`; the source compares the string against both spellings). -/
inductive Subcommand where
  | tests
  | workspace
  | project
  | repository
  | repo
  deriving DecidableEq, Repr

/-- The nested action of the repository subparser (`dest='repo_subcommand'`). -/
inductive RepoAction where
  | show
  | create
  deriving DecidableEq, Repr

/-- The parsed argument namespace.  An `Option` name flag is `none` when the
flag was not given; a `Bool` flag is a `store_true` flag.  Flags belonging to
a subparser keep their default value unless that subparser was selected
(enforced by `grammarOk` below). -/
structure Args where
  user : Option String
  password : Option String
  forScripting : Bool
  subcommand : Subcommand
  list : Bool
  workspace : Option String
  project : Option String
  repository : Option String
  repoAction : Option RepoAction
  links : Bool
  httpsUrl : Bool
  sshUrl : Bool
  publicFlag : Bool
  privateFlag : Bool
  allowForks : Bool
  noAllowForks : Bool
  noPublicForks : Bool
  deriving DecidableEq, Repr

/-- Whether the subcommand string equals `"repository"` or `"repo"`. -/
def isRepoSub : Subcommand → Bool
  | Subcommand.repository => true
  | Subcommand.repo => true
  | _ => false

/-- Whether the nested action is `show`. -/
def isShow : Option RepoAction → Bool
  | some RepoAction.show => true
  | _ => false

/-- Whether the nested action is `create`. -/
def isCreate : Option RepoAction → Bool
  | some RepoAction.create => true
  | _ => false

/-- No two of the three fork-policy flags of the create action may be given
together (`add_mutually_exclusive_group`). -/
def atMostOneFork (x y z : Bool) : Bool :=
  !(x && y) && !(x && z) && !(y && z)

/-- All fields owned by the repository subparser and its nested actions are
at their defaults (those flags do not exist on the other subparsers). -/
def noRepoFields (a : Args) : Bool :=
  a.repoAction.isNone && !a.links && !a.httpsUrl && !a.sshUrl &&
  !a.publicFlag && !a.privateFlag && !a.allowForks && !a.noAllowForks &&
  !a.noPublicForks

/-- The argparse grammar: which argument namespaces `parse_args` can accept
without erroring.  Per subparser: the required mutually exclusive group
(`--list` versus the name flag, exactly one), the required name flags, and —
for the repository subparser — `subparser_subs.required = has_repo_name`
(the nested action is required exactly when `--repository` was given), the
show flags existing only under the `show` action, the create flags existing
only under the `create` action, and the two mutually exclusive create
groups. -/
def grammarOk (a : Args) : Bool :=
  match a.subcommand with
  | Subcommand.tests =>
    !a.list && a.workspace.isNone && a.project.isNone && a.repository.isNone &&
    noRepoFields a
  | Subcommand.workspace =>
    (a.list != a.workspace.isSome) && a.project.isNone && a.repository.isNone &&
    noRepoFields a
  | Subcommand.project =>
    a.workspace.isSome && (a.list != a.project.isSome) && a.repository.isNone &&
    noRepoFields a
  | _ =>
    a.workspace.isSome && a.project.isSome && (a.list != a.repository.isSome) &&
    (!a.repository.isSome || a.repoAction.isSome) &&
    (isShow a.repoAction || (!a.links && !a.httpsUrl && !a.sshUrl)) &&
    (isCreate a.repoAction ||
      (!a.publicFlag && !a.privateFlag && !a.allowForks && !a.noAllowForks &&
       !a.noPublicForks)) &&
    !(a.publicFlag && a.privateFlag) &&
    atMostOneFork a.allowForks a.noAllowForks a.noPublicForks

/-- `BitbucketCLI.__args_verify_repo_show_actions`: sequential checks, each
calling `parser.error` (which terminates) on failure, so the first failing
check's message is returned. -/
def argsVerifyRepoShowActions (a : Args) : Option String :=
  if a.links && !(isRepoSub a.subcommand) then
    some "Error: --links (-L) is only valid for repository operations."
  else if a.links && a.repository.isNone then
    some "Error: --repository (-r) is required with --links (-L)."
  else if a.httpsUrl && !(isRepoSub a.subcommand) then
    some "Error: --https-url (-u) is only valid for repository operations."
  else if a.httpsUrl && a.repository.isNone then
    some "Error: --repository (-r) is required with --https-url (-u)."
  else if a.sshUrl && !(isRepoSub a.subcommand) then
    some "Error: --ssh-url (-s) is only valid for repository operations."
  else if a.sshUrl && a.repository.isNone then
    some "Error: --repository (-r) is required with --ssh-url (-s)."
  else
    none

/-- `BitbucketCLI.__args_verify_repo_actions`: the show checks run only when
the nested action is `show`. -/
def argsVerifyRepoActions (a : Args) : Option String :=
  if isShow a.repoAction then argsVerifyRepoShowActions a else none

/-- The verification step of `__parse_arguments`: the repo-action checks run
only for the `repository`/`repo` subcommand. -/
def argsVerify (a : Args) : Option String :=
  if isRepoSub a.subcommand then argsVerifyRepoActions a else none

/-- Python's `x or y` on an optional string: the left operand wins exactly
when it is truthy (non-`None` and non-empty). -/
def pyOr (x y : Option String) : Option String :=
  match x with
  | some s => if s = "" then y else some s
  | none => y

/-- `self.__username = self.args.user or os.environ.get("BITBUCKET_USER")`. -/
def resolveUsername (flagUser envUser : Option String) : Option String :=
  pyOr flagUser envUser

/-- `self.__password = self.args.password or os.environ.get("BITBUCKET_PASSWORD")`. -/
def resolvePassword (flagPassword envPassword : Option String) : Option String :=
  pyOr flagPassword envPassword

/-- Outcome of `__parse_arguments` after `parse_args` succeeded: either a
`parser.error` (message to standard error, exit 2) or resolved credentials,
with `prompted` recording whether `getpass.getpass` ran. -/
inductive CredOutcome where
  | error (msg : String)
  | ok (username : Option String) (password : Option String) (prompted : Bool)
  deriving DecidableEq, Repr

/-- The tail of `BitbucketCLI.__parse_arguments`, in source order: compute
username and password by truthiness, run the repository-action verification,
fail when the username is `None` for a non-`tests` subcommand, and prompt
(`getpass.getpass`, echo disabled) when the password is `None` for a
non-`tests` subcommand.  `promptAnswer` is the string the prompt would
read. -/
def resolveCreds (a : Args) (envUser envPassword : Option String)
    (promptAnswer : String) : CredOutcome :=
  let username := resolveUsername a.user envUser
  let password := resolvePassword a.password envPassword
  match argsVerify a with
  | some m => CredOutcome.error m
  | none =>
    if username.isNone && !(a.subcommand == Subcommand.tests) then
      CredOutcome.error "Error: Bitbucket username is required."
    else if password.isNone && !(a.subcommand == Subcommand.tests) then
      CredOutcome.ok username (some promptAnswer) true
    else
      CredOutcome.ok username password false

/-- Result of one process invocation: standard-output lines, the single
standard-error message (from `parser.error`) if any, the number of
collaborator lookup round trips performed, the collaborator create calls
performed, and the process exit code (0 normal or help display, 1 uncaught
collaborator fault, 2 argparse error). -/
structure RunResult where
  stdout : List String
  stderr : Option String
  remoteCalls : Nat
  createCalls : List CreateCall
  exitCode : Nat
  deriving DecidableEq, Repr

/-- Stands for the text `parser.print_help()` writes (one help screen,
modelled as a single line). -/
def helpText : String := "usage: bitbucketcli"

/-- `BitbucketCLI.__list_workspaces`: one labelled line per workspace, in
collaborator order.  The method never consults `self.__for_scripting`. -/
def listWorkspacesLines (ws : List Workspace) : List String :=
  ws.map (fun w => "Workspace: " ++ w.name ++ " (" ++ w.slug ++ ")")

/-- `BitbucketCLI.__list_projects`: the label is dropped when
`self.__for_scripting` holds. -/
def listProjectsLines (fs : Bool) (w : Workspace) : List String :=
  let pre := if fs then "" else "Project: "
  w.projects.map (fun p => pre ++ p.name ++ " (" ++ p.key ++ ")")

/-- `BitbucketCLI.__list_repositories`: each printed line is
`prefix + f"{name} ({slug}) in " + suffix`, where both the label and the
ancestor suffix are emptied when `self.__for_scripting` holds (leaving the
literal `" in "` of the format string in place). -/
def listRepositoriesLines (fs : Bool) (p : Project) (w : Workspace) : List String :=
  let pre := if fs then "" else "Repository: "
  let suf := if fs then ""
    else " in Project: " ++ p.name ++ " (" ++ p.key ++ ") in Workspace: " ++
      w.name ++ " (" ++ w.slug ++ ")"
  p.repos.map (fun r => pre ++ r.name ++ " (" ++ r.slug ++ ") in " ++ suf)

/-- `BitbucketCLI.__print_repository_links`: one line per entry of the links
mapping, labelled unless scripting. -/
def printRepositoryLinksLines (fs : Bool) (r : Repo) : List String :=
  let pre := if fs then "" else "Link: "
  r.linkEntries.map (fun kv => pre ++ kv.1 ++ " -> " ++ kv.2)

/-- `BitbucketCLI.__create_repository`: translate the create-action flags to
`is_private` and `fork_policy`, call `create_repository`, and in human mode
print the creation confirmation.  An exception from `create_repository`
propagates uncaught (exit 1). -/
def createRepositoryCmd (a : Args) (fs : Bool) (p : Project) (w : Workspace) :
    RunResult :=
  let is_private : Option Bool :=
    if a.privateFlag then some true
    else if a.publicFlag then some false
    else none
  let fork_policy : Option String :=
    if a.allowForks then some ALLOW_FORKS
    else if a.noAllowForks then some NO_FORKS
    else if a.noPublicForks then some NO_PUBLIC_FORKS
    else none
  match create_repository (some p) (some w) a.repository is_private fork_policy with
  | (Except.error _, calls) => ⟨[], none, 0, calls, 1⟩
  | (Except.ok r, calls) =>
    ⟨if fs then []
     else ["Repository: " ++ r.name ++ " created in Project: " ++ p.name ++
           " in Workspace: " ++ w.name],
     none, 0, calls, 0⟩

/-- `BitbucketCLI.repo_show_cmd`: fetch the repository, print the summary in
human mode, then each requested detail, then the help screen when no detail
flag was given.  A missing clone link raises (exit 1) after the lines printed
so far. -/
def repoShowCmd (a : Args) (fs : Bool) (w : Workspace) (p : Project)
    (rname : String) : RunResult :=
  match getRepository p rname with
  | none => ⟨[], none, 1, [], 1⟩
  | some r =>
    let out0 : List String :=
      if fs then []
      else ["Repository: " ++ r.name ++ " in Project: " ++ p.name ++
            " in Workspace: " ++ w.name]
    let out1 := out0 ++ (if a.links then printRepositoryLinksLines fs r else [])
    if a.httpsUrl then
      match r.httpsUrl? with
      | none => ⟨out1, none, 1, [], 1⟩
      | some u =>
        let out2 := out1 ++ [if fs then u else "HTTPS URL: " ++ u]
        if a.sshUrl then
          match r.sshUrl? with
          | none => ⟨out2, none, 1, [], 1⟩
          | some v => ⟨out2 ++ [if fs then v else "SSH URL: " ++ v], none, 1, [], 0⟩
        else
          ⟨out2, none, 1, [], 0⟩
    else if a.sshUrl then
      match r.sshUrl? with
      | none => ⟨out1, none, 1, [], 1⟩
      | some v => ⟨out1 ++ [if fs then v else "SSH URL: " ++ v], none, 1, [], 0⟩
    else if !a.links && !a.httpsUrl && !a.sshUrl then
      ⟨out1 ++ [helpText], none, 1, [], 0⟩
    else
      ⟨out1, none, 1, [], 0⟩

/-- Prepend the lookups already performed to a command's result. -/
def addCalls (n : Nat) (res : RunResult) : RunResult :=
  { res with remoteCalls := res.remoteCalls + n }

/-- `BitbucketCLI.repo_cmd`: required-flag re-checks (`parser.error`), the
workspace and project lookups, then dispatch on `--list`, `--repository` and
the nested action; the fallback prints the help screen. -/
def repoCmd (a : Args) (fs : Bool) (cloud : Cloud) : RunResult :=
  match a.workspace with
  | none =>
    ⟨[], some "Error: --workspace (-w) is required for repository operations!",
     0, [], 2⟩
  | some wname =>
    match getWorkspace cloud wname with
    | none => ⟨[], none, 1, [], 1⟩
    | some w =>
      match a.project with
      | none =>
        ⟨[], some "Error: --project (-P) is required for repository operations!",
         1, [], 2⟩
      | some pname =>
        match getProject w pname with
        | none => ⟨[], none, 2, [], 1⟩
        | some p =>
          if a.list then
            ⟨listRepositoriesLines fs p w, none, 3, [], 0⟩
          else
            match a.repository with
            | some rname =>
              match a.repoAction with
              | some RepoAction.show => addCalls 2 (repoShowCmd a fs w p rname)
              | some RepoAction.create => addCalls 2 (createRepositoryCmd a fs p w)
              | none => ⟨[helpText], none, 2, [], 0⟩
            | none => ⟨[helpText], none, 2, [], 0⟩

/-- `BitbucketCLI.project_cmd`. -/
def projectCmd (a : Args) (fs : Bool) (cloud : Cloud) : RunResult :=
  match a.workspace with
  | none =>
    ⟨[], some "Error: --workspace (-w) is required for project operations!",
     0, [], 2⟩
  | some wname =>
    match getWorkspace cloud wname with
    | none => ⟨[], none, 1, [], 1⟩
    | some w =>
      if a.list then
        ⟨listProjectsLines fs w, none, 2, [], 0⟩
      else
        match a.project with
        | some pname =>
          match getProject w pname with
          | none => ⟨[], none, 2, [], 1⟩
          | some p =>
            ⟨if fs then [] else ["Project: " ++ p.name ++ " (" ++ p.key ++ ")"],
             none, 2, [], 0⟩
        | none => ⟨[helpText], none, 1, [], 0⟩

/-- `BitbucketCLI.workspace_cmd`. -/
def workspaceCmd (a : Args) (fs : Bool) (cloud : Cloud) : RunResult :=
  if a.list then
    ⟨listWorkspacesLines cloud.workspaces, none, 1, [], 0⟩
  else
    match a.workspace with
    | some wname =>
      match getWorkspace cloud wname with
      | none => ⟨[], none, 1, [], 1⟩
      | some w =>
        ⟨if fs then [] else ["Workspace: " ++ w.name ++ " (" ++ w.slug ++ ")"],
         none, 1, [], 0⟩
    | none => ⟨[helpText], none, 0, [], 0⟩

/-- `BitbucketCLI.main_program`: dispatch on the subcommand string; the
`else` branch prints the help screen. -/
def mainProgram (a : Args) (fs : Bool) (cloud : Cloud) : RunResult :=
  match a.subcommand with
  | Subcommand.workspace => workspaceCmd a fs cloud
  | Subcommand.project => projectCmd a fs cloud
  | Subcommand.repository => repoCmd a fs cloud
  | Subcommand.repo => repoCmd a fs cloud
  | Subcommand.tests => ⟨[helpText], none, 0, [], 0⟩

/-- One full invocation, `main()`: argparse acceptance, then
`__parse_arguments`'s verification, credential resolution and prompting, then
either the self-test runner (`unittest.main`, modelled as producing no
listing output) or `main_program`.  `BitbucketCLI.__init__` sets
`self.__for_scripting = False` and no statement ever reassigns it, so
`main_program` always runs with the internal scripting field `false`,
whatever `args.for_scripting` parsed to. -/
def runCLI (a : Args) (envUser envPassword : Option String)
    (promptAnswer : String) (cloud : Cloud) : RunResult :=
  if grammarOk a then
    match resolveCreds a envUser envPassword promptAnswer with
    | CredOutcome.error m => ⟨[], some m, 0, [], 2⟩
    | CredOutcome.ok _ _ _ =>
      if a.subcommand == Subcommand.tests then ⟨[], none, 0, [], 0⟩
      else mainProgram a false cloud
  else
    ⟨[], some "usage error", 0, [], 2⟩

/-! Concrete fixtures used to evaluate the embedding. -/

/-- Fixture: a repository `r` with HTTPS-first, SSH-second clone links. -/
def repoR : Repo :=
  { name := "r", slug := "r", linkEntries := [("clone", "urls")],
    cloneLinks := ["https://example.org/r.git", "ssh://example.org/r.git"] }

/-- Fixture: a project `p` holding `repoR`. -/
def projP : Project := { name := "p", key := "p", repos := [repoR] }

/-- Fixture: a workspace `w` holding `projP`. -/
def wsW : Workspace := { name := "w", slug := "w", projects := [projP] }

/-- Fixture: the collaborator state holding `wsW`. -/
def cloud0 : Cloud := { workspaces := [wsW] }

/-- Fixture: a repository with no links. -/
def repoR1 : Repo := { name := "r1", slug := "r1", linkEntries := [], cloneLinks := [] }

/-- Fixture: a project holding `repoR1`. -/
def projTeam : Project := { name := "proj", key := "PK", repos := [repoR1] }

/-- Fixture: the workspace of the spec's listing scenario. -/
def wsTeamA : Workspace := { name := "teamA", slug := "team-a", projects := [projTeam] }

/-- Fixture: the collaborator state holding `wsTeamA`. -/
def cloudTeam : Cloud := { workspaces := [wsTeamA] }

/-- Fixture: an argument namespace with every subparser field at its argparse
default and credentials supplied by flags. -/
def baseArgs : Args :=
  { user := some "u", password := some "pw", forScripting := false,
    subcommand := Subcommand.workspace, list := false, workspace := none,
    project := none, repository := none, repoAction := none, links := false,
    httpsUrl := false, sshUrl := false, publicFlag := false,
    privateFlag := false, allowForks := false, noAllowForks := false,
    noPublicForks := false }

/-- Fixture: `--for-scripting workspace --list`. -/
def argsScriptingList : Args := { baseArgs with forScripting := true, list := true }

/-- Fixture: `--for-scripting workspace --workspace w`. -/
def argsScriptingWsName : Args :=
  { baseArgs with forScripting := true, workspace := some "w" }

/-- Fixture: `--for-scripting project --workspace w --project p`. -/
def argsScriptingProjName : Args :=
  { baseArgs with
    forScripting := true, subcommand := Subcommand.project,
    workspace := some "w", project := some "p" }

/-- Fixture: `--for-scripting repository --workspace w --project p
--repository newrepo create`. -/
def argsScriptingCreate : Args :=
  { baseArgs with
    forScripting := true, subcommand := Subcommand.repository,
    workspace := some "w", project := some "p", repository := some "newrepo",
    repoAction := some RepoAction.create }

/-- Fixture: `repository --workspace w --project p --repository r show`
with no detail flag. -/
def argsShowNoFlags : Args :=
  { baseArgs with
    subcommand := Subcommand.repository, workspace := some "w",
    project := some "p", repository := some "r",
    repoAction := some RepoAction.show }

/-- Fixture: `repository --workspace w --project p --repository newrepo
create --private --no-allow-forks`. -/
def argsCreatePrivNoForks : Args :=
  { baseArgs with
    subcommand := Subcommand.repository, workspace := some "w",
    project := some "p", repository := some "newrepo",
    repoAction := some RepoAction.create, privateFlag := true,
    noAllowForks := true }

/-- Fixture: `repository --workspace w --project p --list` with no nested
action. -/
def argsListNoAction : Args :=
  { baseArgs with
    subcommand := Subcommand.repository, workspace := some "w",
    project := some "p", list := true }

/-- Fixture: `repository --workspace w --project p --repository r show` with
`--links`. -/
def argsShowNamed : Args :=
  { baseArgs with
    subcommand := Subcommand.repository, workspace := some "w",
    project := some "p", repository := some "r",
    repoAction := some RepoAction.show, links := true }

/-- Fixture: `repository --workspace w --project p --list show --links`
(detail flag without a named repository; argparse accepts it, the local
verification must reject it). -/
def argsListShowLinks : Args :=
  { baseArgs with
    subcommand := Subcommand.repository, workspace := some "w",
    project := some "p", list := true, repoAction := some RepoAction.show,
    links := true }

/-- Fixture: `workspace --list` with no credential flags. -/
def argsWsListNoCreds : Args :=
  { baseArgs with user := none, password := none, list := true }

/-- Fixture: `tests` with no credential flags. -/
def argsTestsNoCreds : Args :=
  { baseArgs with
    user := none, password := none, subcommand := Subcommand.tests }

/-- Fixture: `workspace --list` with a user flag but no password source. -/
def argsWsListNoPw : Args :=
  { baseArgs with password := none, list := true }

/-! Theorems settling the claims. -/

/-- C1: the claim says that with `--for-scripting` set every listing
operation produces bare values without labels or ancestor suffix, and that
re-labelling recovers the human-mode output.  The code contradicts this (and
the flag's own help text): the parsed flag is never copied to the internal
scripting field, so a `--for-scripting workspace --list` run still prints the
labelled line; moreover `__list_workspaces` has no scripting branch at all,
and the repository listing in scripting form keeps a trailing `" in "`. -/
theorem scripting_mode_never_takes_effect :
    (runCLI argsScriptingList (some "u") (some "pw") "" cloudTeam).stdout
        = ["Workspace: teamA (team-a)"]
    ∧ listWorkspacesLines cloudTeam.workspaces = ["Workspace: teamA (team-a)"]
    ∧ listRepositoriesLines true projTeam wsTeamA = ["r1 (r1) in "]
    ∧ listProjectsLines true wsTeamA = ["proj (PK)"] :=
  ⟨rfl, rfl, rfl, rfl⟩

/-- C3 counterexample: an empty (non-`None`) repository name passes every
local check of `create_repository` and the collaborator's create operation is
invoked (call count one), refuting "fails on a null/empty repository name ...
the external collaborator's create operation is never invoked". -/
theorem create_repository_empty_name_invokes_collaborator :
    create_repository (some projP) (some wsW) (some "") none none
        = (Except.ok (remoteCreate ""),
           [{ repoSlug := "", projectKey := "p", isPrivate := none,
              forkPolicy := none }])
    ∧ (create_repository (some projP) (some wsW) (some "") none none).2.length
        = 1 :=
  ⟨rfl, rfl⟩

/-- C3 (amended): `create_repository` fails locally — with zero collaborator
create calls — on a `None` project, a `None` workspace, a `None` repository
name, or a fork-policy value outside the three recognized policy tokens; an
empty but non-`None` name is not rejected locally. -/
theorem create_repository_local_validation (project : Option Project)
    (workspace : Option Workspace) (n : Option String) (ip : Option Bool)
    (fp : Option String)
    (h : project = none ∨ workspace = none ∨ n = none ∨
         (∃ s, fp = some s ∧ s ∉ FORK_POLICIES)) :
    (∃ m, (create_repository project workspace n ip fp).1 = Except.error m)
    ∧ (create_repository project workspace n ip fp).2 = [] := by
  rcases h with rfl | rfl | rfl | ⟨s, rfl, hs⟩
  · exact ⟨⟨_, rfl⟩, rfl⟩
  · cases project <;> exact ⟨⟨_, rfl⟩, rfl⟩
  · cases project <;> cases workspace <;> exact ⟨⟨_, rfl⟩, rfl⟩
  · cases project with
    | none => exact ⟨⟨_, rfl⟩, rfl⟩
    | some p =>
      cases workspace with
      | none => exact ⟨⟨_, rfl⟩, rfl⟩
      | some w =>
        cases n with
        | none => exact ⟨⟨_, rfl⟩, rfl⟩
        | some nm =>
          refine ⟨⟨"fork_policy is not a valid value", ?_⟩, ?_⟩ <;>
            simp [create_repository, hs]

/-- Witness for C3 (amended): evaluated at a `None` project and at an
unrecognized fork-policy token. -/
theorem create_repository_local_validation_witness :
    ((∃ m, (create_repository none (some wsW) (some "x") none none).1
        = Except.error m)
      ∧ (create_repository none (some wsW) (some "x") none none).2 = [])
    ∧ ((∃ m, (create_repository (some projP) (some wsW) (some "x") none
            (some "bogus")).1 = Except.error m)
      ∧ (create_repository (some projP) (some wsW) (some "x") none
            (some "bogus")).2 = []) :=
  ⟨create_repository_local_validation none (some wsW) (some "x") none none
      (Or.inl rfl),
   create_repository_local_validation (some projP) (some wsW) (some "x") none
      (some "bogus")
      (Or.inr (Or.inr (Or.inr ⟨"bogus", rfl, by decide⟩)))⟩

/-- C6: `repository --workspace w --project p --repository r show` with no
detail flag prints the repository summary followed by the usage help and
exits with status zero. -/
theorem show_without_detail_flags_prints_help :
    (runCLI argsShowNoFlags (some "u") (some "pw") "" cloud0).stdout
        = ["Repository: r in Project: p in Workspace: w", helpText]
    ∧ (runCLI argsShowNoFlags (some "u") (some "pw") "" cloud0).exitCode = 0 :=
  ⟨rfl, rfl⟩

/-- C7: `repository --workspace w --project p --repository newrepo create
--private --no-allow-forks` invokes the collaborator's create operation
exactly once with `is_private = true` and `fork_policy = NO_FORKS`, and
prints a confirmation naming the repository, the project and the
workspace. -/
theorem create_private_no_forks_scenario :
    (runCLI argsCreatePrivNoForks (some "u") (some "pw") "" cloud0).createCalls
        = [{ repoSlug := "newrepo", projectKey := "p", isPrivate := some true,
             forkPolicy := some NO_FORKS }]
    ∧ (runCLI argsCreatePrivNoForks (some "u") (some "pw") "" cloud0).stdout
        = ["Repository: newrepo created in Project: p in Workspace: w"]
    ∧ (runCLI argsCreatePrivNoForks (some "u") (some "pw") "" cloud0).exitCode
        = 0 :=
  ⟨rfl, rfl, rfl⟩

/-- C9: a `--user` or `--password` flag whose value is the empty string is
treated as absent by credential resolution — Python truthiness makes it fall
through to the environment variable, and the whole downstream outcome
(missing-username error, password prompt) is identical to the flag being
absent. -/
theorem empty_flag_value_treated_as_absent :
    (∀ envUser : Option String,
      resolveUsername (some "") envUser = resolveUsername none envUser)
    ∧ (∀ envPassword : Option String,
      resolvePassword (some "") envPassword = resolvePassword none envPassword)
    ∧ (∀ (a : Args) (envUser envPassword : Option String) (pa : String),
      resolveCreds { a with user := some "" } envUser envPassword pa
        = resolveCreds { a with user := none } envUser envPassword pa)
    ∧ (∀ (a : Args) (envUser envPassword : Option String) (pa : String),
      resolveCreds { a with password := some "" } envUser envPassword pa
        = resolveCreds { a with password := none } envUser envPassword pa) :=
  ⟨fun _ => rfl, fun _ => rfl, fun _ _ _ _ => rfl, fun _ _ _ _ => rfl⟩

/-- C10: the claim says that with `--for-scripting` set, resolving a single
named workspace, a single named project, and a successful creation each print
nothing.  The guards in the code do suppress those lines when the internal
scripting field holds (first, third and fifth conjuncts), but the parsed flag
is never copied into that field, so an actual `--for-scripting` invocation
still prints each summary line (second, fourth and sixth conjuncts). -/
theorem scripting_suppression_never_reached :
    (workspaceCmd argsScriptingWsName true cloud0).stdout = []
    ∧ (runCLI argsScriptingWsName (some "u") (some "pw") "" cloud0).stdout
        = ["Workspace: w (w)"]
    ∧ (projectCmd argsScriptingProjName true cloud0).stdout = []
    ∧ (runCLI argsScriptingProjName (some "u") (some "pw") "" cloud0).stdout
        = ["Project: p (p)"]
    ∧ (createRepositoryCmd argsScriptingCreate true projP wsW).stdout = []
    ∧ (runCLI argsScriptingCreate (some "u") (some "pw") "" cloud0).stdout
        = ["Repository: newrepo created in Project: p in Workspace: w"] :=
  ⟨rfl, rfl, rfl, rfl, rfl, rfl⟩

/-- C2: credential resolution priority is flag > environment > prompt: a
present (non-empty, see C9) flag value is used and always wins over the
environment; with the flag absent the environment variable is used; when no
source yields a password (and the subcommand is not `tests`) the interactive
prompt supplies it; when a password is available, no prompt occurs. -/
theorem credential_priority :
    (∀ (u : String) (env : Option String), u ≠ "" → pyOr (some u) env = some u)
    ∧ (∀ env : Option String, pyOr none env = env)
    ∧ (∀ (a : Args) (envUser envPassword : Option String) (pa : String),
        argsVerify a = none → (a.subcommand == Subcommand.tests) = false →
        (resolveUsername a.user envUser).isNone = false →
        resolvePassword a.password envPassword = none →
        resolveCreds a envUser envPassword pa
          = CredOutcome.ok (resolveUsername a.user envUser) (some pa) true)
    ∧ (∀ (a : Args) (envUser envPassword : Option String) (pa : String),
        argsVerify a = none →
        (resolveUsername a.user envUser).isNone = false →
        (resolvePassword a.password envPassword).isNone = false →
        resolveCreds a envUser envPassword pa
          = CredOutcome.ok (resolveUsername a.user envUser)
              (resolvePassword a.password envPassword) false) := by
  refine ⟨?_, ?_, ?_, ?_⟩
  · intro u env h
    simp [pyOr, h]
  · intro env
    rfl
  · intro a envU envP pa hv ht hu hp
    simp [resolveCreds, hv, hu, hp, ht]
  · intro a envU envP pa hv hu hp
    simp [resolveCreds, hv, hu, hp]

/-- Witness for C2, at concrete sources: flag beats environment, environment
fallback, prompt when no password source is available, no prompt when the
environment supplies both credentials. -/
theorem credential_priority_witness :
    pyOr (some "flagU") (some "envU") = some "flagU"
    ∧ pyOr none (some "envU") = some "envU"
    ∧ resolveCreds argsWsListNoPw none none "typed"
        = CredOutcome.ok (some "u") (some "typed") true
    ∧ resolveCreds argsWsListNoCreds (some "envU") (some "envP") "x"
        = CredOutcome.ok (some "envU") (some "envP") false :=
  ⟨credential_priority.1 "flagU" (some "envU") (by decide),
   credential_priority.2.1 (some "envU"),
   credential_priority.2.2.1 argsWsListNoPw none none "typed" rfl rfl rfl rfl,
   credential_priority.2.2.2 argsWsListNoCreds (some "envU") (some "envP") "x"
     rfl rfl rfl⟩

/-- Helper: a grammar-accepted namespace with a detail flag set must sit in
the repository subparser with the `show` action selected (those flags exist
nowhere else). -/
theorem grammar_detail_flags_show (a : Args) (hg : grammarOk a = true)
    (hflag : a.links = true ∨ a.httpsUrl = true ∨ a.sshUrl = true) :
    isRepoSub a.subcommand = true ∧ isShow a.repoAction = true := by
  obtain ⟨u, pw, fsf, sc, l, ws, pj, rp, ra, lnk, hurl, surl, pub, priv, af,
    naf, npf⟩ := a
  cases sc <;>
    simp only [grammarOk, noRepoFields, atMostOneFork, Bool.and_eq_true,
      Bool.not_eq_true', Bool.or_eq_true] at hg <;>
    rcases hflag with h | h | h <;>
    simp_all [isRepoSub]

/-- Helper: within the repository subparser's `show` action, any detail flag
with no `--repository` value makes `__args_verify_repo_show_actions` call
`parser.error`. -/
theorem verify_errors_on_detail_without_repo (a : Args)
    (hrs : isRepoSub a.subcommand = true) (hsh : isShow a.repoAction = true)
    (hrep : a.repository = none)
    (hflag : a.links = true ∨ a.httpsUrl = true ∨ a.sshUrl = true) :
    ∃ m, argsVerify a = some m := by
  simp only [argsVerify, argsVerifyRepoActions, argsVerifyRepoShowActions,
    hrs, hsh, hrep, if_true, Bool.not_true, Bool.and_false, Option.isNone_none,
    Bool.and_true, Bool.false_eq_true, if_false]
  cases hl : a.links
  · cases hh : a.httpsUrl
    · cases hs : a.sshUrl
      · simp [hl, hh, hs] at hflag
      · simp
    · simp
  · simp

/-- C4: whenever a detail flag (`--links`, `--https-url`, `--ssh-url`) is set
while no repository was named via `--repository` (`-r`) or the subcommand is not
`repository`/`repo`, the invocation aborts as a fatal argument error — a
message on standard error, exit status 2 — with zero collaborator calls. -/
theorem detail_flags_require_named_repository (a : Args)
    (envUser envPassword : Option String) (pa : String) (cloud : Cloud)
    (hflag : a.links = true ∨ a.httpsUrl = true ∨ a.sshUrl = true)
    (hbad : a.repository = none ∨ isRepoSub a.subcommand = false) :
    (runCLI a envUser envPassword pa cloud).exitCode = 2
    ∧ (runCLI a envUser envPassword pa cloud).stderr.isSome = true
    ∧ (runCLI a envUser envPassword pa cloud).remoteCalls = 0
    ∧ (runCLI a envUser envPassword pa cloud).createCalls = [] := by
  by_cases hg : grammarOk a = true
  · obtain ⟨hrs, hsh⟩ := grammar_detail_flags_show a hg hflag
    have hrep : a.repository = none := by
      rcases hbad with h | h
      · exact h
      · rw [h] at hrs
        cases hrs
    obtain ⟨m, hm⟩ := verify_errors_on_detail_without_repo a hrs hsh hrep hflag
    have hcred : resolveCreds a envUser envPassword pa = CredOutcome.error m := by
      simp [resolveCreds, hm]
    simp [runCLI, hg, hcred]
  · have hgf : grammarOk a = false := by
      revert hg
      cases grammarOk a <;> simp
    simp [runCLI, hgf]

/-- Witness for C4: `repository --workspace w --project p --list show
--links` (argparse-acceptable, repository name missing) aborts with exit 2
and no collaborator calls. -/
theorem detail_flags_require_named_repository_witness :
    (runCLI argsListShowLinks none none "" cloud0).exitCode = 2
    ∧ (runCLI argsListShowLinks none none "" cloud0).stderr.isSome = true
    ∧ (runCLI argsListShowLinks none none "" cloud0).remoteCalls = 0
    ∧ (runCLI argsListShowLinks none none "" cloud0).createCalls = [] :=
  detail_flags_require_named_repository argsListShowLinks none none "" cloud0
    (Or.inl rfl) (Or.inl rfl)

/-- C5: the nested `show`/`create` selector is mandatory exactly when a
specific repository name was supplied: every grammar-accepted namespace with
`--repository` given carries a nested action (omitting it is a parse error);
a `--list` namespace without any nested action is accepted; and with `--list`
chosen the dispatcher performs the listing without consulting the nested
action — the hypotheses do not constrain `repoAction`, so the result is the
same for every value of it. -/
theorem nested_action_required_iff_repository_named :
    (∀ a : Args, grammarOk a = true → a.repository.isSome = true →
      a.repoAction.isSome = true)
    ∧ grammarOk argsListNoAction = true
    ∧ (∀ (a : Args) (fs : Bool) (cloud : Cloud) (wname pname : String)
        (w : Workspace) (p : Project), a.list = true →
        a.workspace = some wname → getWorkspace cloud wname = some w →
        a.project = some pname → getProject w pname = some p →
        repoCmd a fs cloud = ⟨listRepositoriesLines fs p w, none, 3, [], 0⟩) := by
  refine ⟨?_, by decide, ?_⟩
  · intro a hg hr
    obtain ⟨u, pw, fsf, sc, l, ws, pj, rp, ra, lnk, hurl, surl, pub, priv, af,
      naf, npf⟩ := a
    simp only at hr ⊢
    cases sc <;> simp_all [grammarOk, noRepoFields]
  · intro a fs cloud wname pname w p hl hw hgw hp hgp
    simp only [repoCmd, hw, hgw, hp, hgp, hl, if_true]

/-- Witness for C5: a `show` invocation with `--repository r` carries the
action; `repository --workspace w --project p --list` with no action is
grammar-accepted and lists the repositories. -/
theorem nested_action_required_iff_repository_named_witness :
    argsShowNamed.repoAction.isSome = true
    ∧ grammarOk argsListNoAction = true
    ∧ repoCmd argsListNoAction false cloud0
        = ⟨listRepositoriesLines false projP wsW, none, 3, [], 0⟩ :=
  ⟨nested_action_required_iff_repository_named.1 argsShowNamed rfl rfl,
   nested_action_required_iff_repository_named.2.1,
   nested_action_required_iff_repository_named.2.2 argsListNoAction false
     cloud0 "w" "p" wsW projP rfl rfl rfl rfl rfl⟩

/-- C8: with the username absent from both the flag and the environment and a
non-`tests` subcommand, the run fails fatally with the missing-credential
message on standard error, a non-zero exit and zero collaborator calls; for
the `tests` subcommand no credential is required and the password prompt
never occurs. -/
theorem missing_username_fatal :
    (∀ (a : Args) (envPassword : Option String) (pa : String) (cloud : Cloud),
      grammarOk a = true → argsVerify a = none →
      (a.subcommand == Subcommand.tests) = false → a.user = none →
      runCLI a none envPassword pa cloud
        = ⟨[], some "Error: Bitbucket username is required.", 0, [], 2⟩)
    ∧ (∀ (a : Args) (envUser envPassword : Option String) (pa : String),
      a.subcommand = Subcommand.tests →
      resolveCreds a envUser envPassword pa
        = CredOutcome.ok (resolveUsername a.user envUser)
            (resolvePassword a.password envPassword) false) := by
  constructor
  · intro a envP pa cloud hg hv ht hu
    have hcred : resolveCreds a none envP pa
        = CredOutcome.error "Error: Bitbucket username is required." := by
      simp [resolveCreds, hv, hu, ht, resolveUsername, pyOr]
    simp [runCLI, hg, hcred]
  · intro a envU envP pa ht
    have hv : argsVerify a = none := by
      simp [argsVerify, ht, isRepoSub]
    simp [resolveCreds, hv, ht]

/-- Witness for C8: `workspace --list` with no credential source fails with
the missing-username message; `tests` with no credential source resolves
without error and without prompting. -/
theorem missing_username_fatal_witness :
    runCLI argsWsListNoCreds none none "" cloud0
        = ⟨[], some "Error: Bitbucket username is required.", 0, [], 2⟩
    ∧ resolveCreds argsTestsNoCreds none none ""
        = CredOutcome.ok none none false :=
  ⟨missing_username_fatal.1 argsWsListNoCreds none "" cloud0 rfl rfl rfl rfl,
   missing_username_fatal.2 argsTestsNoCreds none none "" rfl⟩

end BitbucketCLI
